import Mathlib

/-!
Shallow embedding of the airtime-bot source (src/aitest.py) and proofs of the
spec claims about it.

Modelling conventions:
- Timestamps are natural numbers (the source formats `datetime.now()` as a
  string; only ordering matters to the claims).
- The messaging platform's membership lookup (`bot.get_chat_member`) is a
  parameter `lookup : String → LookupResult`: either a reported status string
  or a raised exception (`failure`).
- Mongo collections are Lean lists; `update_one` with `upsert=True` updates the
  first matching document or appends a fresh one; `insert_one` appends.
- Each handler returns an `HRes`: the database after the handler ran, the
  ordered trace of externally visible effects it performed (`sent`), and
  `err = some e` when the Python handler raises exception `e` after having
  performed exactly the effects in `sent` (python-telegram-bot catches and
  logs such exceptions; nothing further is sent to the user).
- `Upd.message` models `update.message`, which is `None` for callback-query
  updates; accessing `.reply_text` on it raises `AttributeError`.
- Fallible Mongo writes in `handle_airtime_request` are modelled by the flags
  `reqOk` / `txOk`: `false` means the corresponding `insert_one` raises.
- `random.randint(10, 50)` is modelled by a parameter `r` with the RNG
  contract `10 ≤ r ≤ 50` assumed in theorems.
-/

/-- A Telegram user as seen on an update (`update.effective_user` /
`query.from_user`). -/
structure TgUser where
  id : Nat
  username : Option String
  first_name : String
  last_name : Option String
deriving DecidableEq, Repr

/-- A document of the `users` collection, as written by `add_user`. -/
structure UserRec where
  user_id : Nat
  username : Option String
  first_name : String
  last_name : Option String
  balance : Nat
  requests : Nat
  join_date : Nat
deriving DecidableEq, Repr

/-- A document of the `airtime_requests` collection. -/
structure AirtimeRequestRec where
  user_id : Nat
  network : String
  phone_number : String
  amount : Nat
  status : String
  timestamp : Nat
deriving DecidableEq, Repr

/-- A document of the `transactions` collection. -/
structure TransactionRec where
  user_id : Nat
  ttype : String
  amount : Nat
  status : String
  timestamp : Nat
deriving DecidableEq, Repr

/-- The three Mongo collections. -/
structure DB where
  users : List UserRec
  airtime_requests : List AirtimeRequestRec
  transactions : List TransactionRec
deriving DecidableEq, Repr

/-- Result of `bot.get_chat_member`: a reported status string, or a raised
exception (network error, unknown user, bot cannot see the channel, ...). -/
inductive LookupResult where
  | status (s : String)
  | failure
deriving DecidableEq, Repr

/-- Messages the bot renders (content abstracted to the data the claims are
about). -/
inductive Msg where
  | joinPrompt (channels links : List String)
  | featureMenu (networks : List String)
  | profileInfo (user_id : Nat) (first_name : String) (username : Option String)
      (request_count : Nat) (join_date : Nat)
  | verifiedConfirmation
  | successSummary (network : String) (amount : Nat)
  | statsDenied
  | statsReport (user_count : Nat) (total_requests : Nat)
  | broadcastDenied
  | broadcastUsage
  | broadcastReport (success : Nat)
deriving DecidableEq, Repr

/-- One externally visible effect of a handler, in execution order. -/
inductive Eff where
  | upsertUser (user_id : Nat)
  | oracleQuery (user_id : Nat)
  | send (m : Msg)
  | editMsg (m : Msg)
  | answerAlert
  | answerCallback
  | animFrame (s : String)
  | deleteProcessing
  | attemptDeliver (user_id : Nat) (ok : Bool)
deriving DecidableEq, Repr

/-- Result of running one handler: database afterwards, effect trace, and the
exception the handler raised (if any) after performing exactly `sent`. -/
structure HRes where
  db : DB
  sent : List Eff
  err : Option String
deriving DecidableEq, Repr

/-- An incoming update: the acting user and `update.message`
(`none` on callback-query updates). -/
structure Upd where
  from_user : TgUser
  message : Option Unit
deriving DecidableEq, Repr

/-- The six animation frames (`PROCESSING_FRAMES` in the source). -/
def PROCESSING_FRAMES : List String := [
  "Processing Airtime Request 15",
  "Processing Airtime Request 30",
  "Processing Airtime Request 45",
  "Processing Airtime Request 60",
  "Processing Airtime Request 80",
  "Processing Airtime Request 100"
]

/-- The fixed feature menu of `start`: one button per supported network. -/
def networks_keyboard : List String := ["MTN", "AIRTEL", "GLO", "9MOBILE"]

/-- The four airtime callback patterns registered in `main`. -/
def airtime_callbacks : List String :=
  ["airtime_MTN", "airtime_AIRTEL", "airtime_GLO", "airtime_9MOBILE"]

/-- The statuses accepted by `is_user_member`
(`["member", "administrator", "creator"]` in the source). -/
def member_statuses : List String := ["member", "administrator", "creator"]

/-- The `$set` document of `add_user`: every field except the key `user_id`
is overwritten (`balance`, `requests`, `join_date` included). -/
def set_user_fields (now : Nat) (u : TgUser) (r : UserRec) : UserRec :=
  { r with
    username := u.username
    first_name := u.first_name
    last_name := u.last_name
    balance := 0
    requests := 0
    join_date := now }

/-- `update_one` semantics on a list collection: rewrite the first matching
document, leave the rest untouched. -/
def update_first (p : UserRec → Bool) (f : UserRec → UserRec) :
    List UserRec → List UserRec
  | [] => []
  | r :: rest => if p r then f r :: rest else r :: update_first p f rest

/-- `add_user` (src/aitest.py lines 103-116): `update_one` keyed on `user_id`
with a `$set` of all display fields and of `balance`, `requests`,
`join_date`, with `upsert=True`. -/
def add_user (now : Nat) (u : TgUser) (db : DB) : DB :=
  if db.users.any (fun r => r.user_id == u.id) then
    { db with users :=
        update_first (fun r => r.user_id == u.id) (set_user_fields now u) db.users }
  else
    { db with users :=
        db.users ++ [⟨u.id, u.username, u.first_name, u.last_name, 0, 0, now⟩] }

/-- `add_airtime_request` (lines 118-127): `insert_one` with status
"pending". -/
def add_airtime_request (user_id : Nat) (network phone_number : String)
    (amount now : Nat) (db : DB) : DB :=
  { db with airtime_requests :=
      db.airtime_requests ++ [⟨user_id, network, phone_number, amount, "pending", now⟩] }

/-- `add_transaction` (lines 129-137): `insert_one`; the source's `status`
parameter defaults to "completed" and every call site uses the default. -/
def add_transaction (user_id : Nat) (ttype : String) (amount : Nat)
    (status : String) (now : Nat) (db : DB) : DB :=
  { db with transactions :=
      db.transactions ++ [⟨user_id, ttype, amount, status, now⟩] }

/-- `get_user_stats` (lines 139-143): `find_one` on users plus
`count_documents` on airtime requests. -/
def get_user_stats (user_id : Nat) (db : DB) : Option UserRec × Nat :=
  (db.users.find? (fun r => r.user_id == user_id),
   (db.airtime_requests.filter (fun r => r.user_id == user_id)).length)

/-- `is_user_member` (lines 146-156): for each required channel, look up the
status; an exception or a status outside `member_statuses` returns `false`
immediately; `true` only once every channel has passed. -/
def is_user_member (lookup : String → LookupResult) : List String → Bool
  | [] => true
  | c :: rest =>
    match lookup c with
    | .failure => false
    | .status s =>
        if member_statuses.contains s then is_user_member lookup rest
        else false

/-- The per-channel test performed by one iteration of the
`is_user_member` loop. -/
def channel_passes (lookup : String → LookupResult) (ch : String) : Bool :=
  match lookup ch with
  | .failure => false
  | .status s => member_statuses.contains s

/-- `ask_user_to_join` (lines 158-171): builds one join button per required
channel (indexing `channel_links`, so an `IndexError` is raised when the links
list is shorter), then replies on `update.message` (raising `AttributeError`
when that is `None`). -/
def ask_user_to_join (channels links : List String) (upd : Upd) :
    Except String Eff :=
  if channels.length ≤ links.length then
    match upd.message with
    | some _ => .ok (.send (.joinPrompt channels links))
    | none => .error "AttributeError"
  else .error "IndexError"

/-- `start` (lines 228-248): upsert the user, query the oracle; non-members
get the join prompt, members get the feature menu. Both replies go through
`update.message`, which is `None` when `start` is re-entered from the verify
callback. -/
def start (channels links : List String) (lookup : String → LookupResult)
    (now : Nat) (upd : Upd) (db : DB) : HRes :=
  let u := upd.from_user
  let db1 := add_user now u db
  let pre : List Eff := [.upsertUser u.id, .oracleQuery u.id]
  if is_user_member lookup channels then
    match upd.message with
    | some _ => ⟨db1, pre ++ [.send (.featureMenu networks_keyboard)], none⟩
    | none => ⟨db1, pre, some "AttributeError"⟩
  else
    match ask_user_to_join channels links upd with
    | .ok a => ⟨db1, pre ++ [a], none⟩
    | .error e => ⟨db1, pre, some e⟩

/-- `profile` (lines 250-265): query the oracle (no upsert); non-members get
the join prompt; members get the profile text built from the stored user
record (raising `AttributeError` when no record exists, since
`user_data.get` is called on `None`). -/
def profile (channels links : List String) (lookup : String → LookupResult)
    (upd : Upd) (db : DB) : HRes :=
  let u := upd.from_user
  if is_user_member lookup channels then
    match upd.message with
    | none => ⟨db, [.oracleQuery u.id], some "AttributeError"⟩
    | some _ =>
      match get_user_stats u.id db with
      | (none, _) => ⟨db, [.oracleQuery u.id], some "AttributeError"⟩
      | (some rec, request_count) =>
          ⟨db, [.oracleQuery u.id,
                .send (.profileInfo u.id u.first_name u.username request_count
                  rec.join_date)], none⟩
  else
    match ask_user_to_join channels links upd with
    | .ok a => ⟨db, [.oracleQuery u.id, a], none⟩
    | .error e => ⟨db, [.oracleQuery u.id], some e⟩

/-- `verify_membership` (lines 173-182): re-run the oracle; on success edit
the prompt to a confirmation and call `start` on the same (callback-query)
update, whose `message` field is `None`; on failure answer with a transient
alert only. -/
def verify_membership (channels links : List String)
    (lookup : String → LookupResult) (now : Nat) (u : TgUser) (db : DB) : HRes :=
  if is_user_member lookup channels then
    let r := start channels links lookup now ⟨u, none⟩ db
    ⟨r.db, .oracleQuery u.id :: .editMsg .verifiedConfirmation :: r.sent, r.err⟩
  else
    ⟨db, [.oracleQuery u.id, .answerAlert], none⟩

/-- `query.data.split('_')[1]` of `handle_airtime_request`. -/
def network_of (data : String) : String := (data.splitOn "_").getD 1 ""

/-- `handle_airtime_request` (lines 193-225): answer the callback, play the
animation, draw `amount = r * 10` with `r = random.randint(10, 50)`, insert
one AirtimeRequest (at time `t1`) and one Transaction (at time `t2`), then
delete the animation and reply with the success summary. `reqOk` / `txOk`
model whether the two `insert_one` calls succeed; a failed insert raises out
of the handler after the effects performed so far. -/
def handle_airtime_request (reqOk txOk : Bool) (r t1 t2 : Nat) (u : TgUser)
    (data : String) (db : DB) : HRes :=
  let network := network_of data
  let amount := r * 10
  let pre : List Eff := .answerCallback :: PROCESSING_FRAMES.map .animFrame
  if reqOk then
    let db1 := add_airtime_request u.id network "DEMO_PHONE" amount t1 db
    if txOk then
      let db2 := add_transaction u.id "airtime" amount "completed" t2 db1
      ⟨db2, pre ++ [.deleteProcessing, .send (.successSummary network amount)], none⟩
    else ⟨db1, pre, some "PersistenceFailure"⟩
  else ⟨db, pre, some "PersistenceFailure"⟩

/-- The callback-query routing of `main` (lines 327-331): the four
`airtime_*` patterns go to `handle_airtime_request`, `verify_membership`
goes to the verify handler; anything else is unhandled. -/
def on_callback (channels links : List String) (lookup : String → LookupResult)
    (reqOk txOk : Bool) (r t1 t2 now : Nat) (u : TgUser) (data : String)
    (db : DB) : Option HRes :=
  if airtime_callbacks.contains data then
    some (handle_airtime_request reqOk txOk r t1 t2 u data db)
  else if data == "verify_membership" then
    some (verify_membership channels links lookup now u db)
  else none

/-- `stats` (lines 267-279): admin identity gate, then aggregate counts. -/
def stats (admin_id : Nat) (u : TgUser) (db : DB) : HRes :=
  if u.id ≠ admin_id then
    ⟨db, [.send .statsDenied], none⟩
  else
    ⟨db, [.send (.statsReport db.users.length db.airtime_requests.length)], none⟩

/-- The delivery loop of `broadcast` (lines 295-300): one attempt per known
user in order, counting only the successes; `deliver` tells whether
`send_message` to a given user id succeeds or raises. -/
def broadcast_loop (deliver : Nat → Bool) : List Nat → Nat × List Eff
  | [] => (0, [])
  | uid :: rest =>
    let res := broadcast_loop deliver rest
    if deliver uid then (res.1 + 1, .attemptDeliver uid true :: res.2)
    else (res.1, .attemptDeliver uid false :: res.2)

/-- `broadcast` (lines 281-302): admin identity gate, usage error on an empty
argument list, otherwise attempt delivery to every known user and report the
success count. -/
def broadcast (admin_id : Nat) (u : TgUser) (args : List String)
    (deliver : Nat → Bool) (db : DB) : HRes :=
  if u.id ≠ admin_id then
    ⟨db, [.send .broadcastDenied], none⟩
  else if args.isEmpty then
    ⟨db, [.send .broadcastUsage], none⟩
  else
    let res := broadcast_loop deliver (db.users.map (fun rec => rec.user_id))
    ⟨db, res.2 ++ [.send (.broadcastReport res.1)], none⟩

/-! Concrete fixtures used by witnesses and counterexamples. -/

/-- A concrete Telegram user. -/
def u7 : TgUser := ⟨7, some "uname", "Seven", none⟩

/-- `u7` arriving on a command-message update. -/
def u7m : Upd := ⟨u7, some ()⟩

/-- An empty database. -/
def db0 : DB := ⟨[], [], []⟩

/-- A database already holding a record for user 7 with nonzero balance and
request count and an old join date. -/
def dbExist : DB := ⟨[⟨7, some "olduname", "Old", none, 5, 3, 100⟩], [], []⟩

/-- A lookup reporting "member" for every channel. -/
def lookupMember : String → LookupResult := fun _ => .status "member"

/-- A lookup raising on every channel. -/
def lookupFailAll : String → LookupResult := fun _ => .failure

/-- A lookup that passes channel "a", fails channel "b", passes the rest. -/
def lookupAB : String → LookupResult := fun ch =>
  if ch == "b" then .failure else .status "member"

/-- A lookup agreeing with `lookupAB` on "a" and "b" but failing "c". -/
def lookupAB2 : String → LookupResult := fun ch =>
  if ch == "a" then .status "member" else .failure

/-- The configured admin identity for the witnesses. -/
def uAdmin : TgUser := ⟨1, none, "Admin", none⟩

/-- A database with two known users (ids 1 and 2). -/
def dbTwo : DB :=
  ⟨[⟨1, none, "A", none, 0, 0, 0⟩, ⟨2, none, "B", none, 0, 0, 0⟩], [], []⟩

/-- A delivery outcome: sends to odd user ids succeed, the rest raise. -/
def deliverOdd : Nat → Bool := fun i => i % 2 == 1

/-! ## Lemmas about the membership oracle -/

/-- The loop of `is_user_member` computes the conjunction of the per-channel
tests. -/
theorem is_user_member_eq_all (lookup : String → LookupResult)
    (chs : List String) :
    is_user_member lookup chs = chs.all (channel_passes lookup) := by
  induction chs with
  | nil => rfl
  | cons c rest ih =>
    show (match lookup c with
      | .failure => false
      | .status s =>
          if member_statuses.contains s then is_user_member lookup rest
          else false) = _
    cases h : lookup c with
    | failure => simp [List.all_cons, channel_passes, h]
    | status s =>
      by_cases hs : member_statuses.contains s <;>
        simp [List.all_cons, channel_passes, h, hs, ih]

/-- A channel passes exactly when the lookup reports one of the three accepted
statuses. -/
theorem channel_passes_iff (lookup : String → LookupResult) (ch : String) :
    channel_passes lookup ch = true ↔
      ∃ s, lookup ch = .status s ∧
        (s = "member" ∨ s = "administrator" ∨ s = "creator") := by
  unfold channel_passes
  cases h : lookup ch with
  | failure => simp
  | status s => simp [member_statuses]

/-- C2: the membership oracle returns `true` iff every required channel
reports status member / administrator / creator ("creator" is the owner); any
other status or any raised lookup makes it `false`; and it returns `false` as
soon as the first failing channel is reached: when the channels before `c`
pass and `c` fails, the result over `pre ++ c :: post` is `false` for any
lookup agreeing on `pre ++ [c]`, whatever it does on `post`. -/
theorem is_user_member_spec (lookup lookup2 : String → LookupResult)
    (channels pre post : List String) (c : String)
    (hpre : ∀ ch ∈ pre, channel_passes lookup ch = true)
    (hc : channel_passes lookup c = false)
    (hagree : ∀ ch ∈ pre ++ [c], lookup2 ch = lookup ch) :
    (is_user_member lookup channels = true ↔
      ∀ ch ∈ channels, ∃ s, lookup ch = .status s ∧
        (s = "member" ∨ s = "administrator" ∨ s = "creator"))
    ∧ is_user_member lookup2 (pre ++ c :: post) = false := by
  constructor
  · rw [is_user_member_eq_all, List.all_eq_true]
    exact forall₂_congr fun ch _ => channel_passes_iff lookup ch
  · rw [is_user_member_eq_all, List.all_eq_false]
    refine ⟨c, by simp, ?_⟩
    have hl : lookup2 c = lookup c := hagree c (by simp)
    unfold channel_passes at hc ⊢
    rw [hl, hc]
    simp

/-- Witness for `is_user_member_spec`: `lookupAB` passes "a" and raises on
"b", and `lookupAB2` agrees with it on "a" and "b"; the oracle over
"a", "b", "c" is `false` whatever "c" reports. -/
theorem is_user_member_spec_witness :
    (is_user_member lookupAB ["a", "x"] = true ↔
      ∀ ch ∈ ["a", "x"], ∃ s, lookupAB ch = .status s ∧
        (s = "member" ∨ s = "administrator" ∨ s = "creator"))
    ∧ is_user_member lookupAB2 (["a"] ++ "b" :: ["c"]) = false :=
  is_user_member_spec lookupAB lookupAB2 ["a", "x"] ["a"] ["c"] "b"
    (by decide) (by decide) (by decide)

/-! ## C1: gating of the entry and profile commands -/

/-- C1 (amended): on a command update, the membership check decides exactly
one of two outcomes. Non-members: both gated commands yield the verification
prompt and nothing else gated. Members: the entry command yields the feature
menu (one choice per supported network) and never the prompt; the profile
command never yields the prompt (nor the feature menu — it renders the
profile text built from the stored user record when one exists). -/
theorem gated_dichotomy (channels links : List String)
    (lookup : String → LookupResult) (now : Nat) (u : TgUser) (db : DB)
    (hlen : channels.length ≤ links.length) :
    (is_user_member lookup channels = false →
      start channels links lookup now ⟨u, some ()⟩ db =
        ⟨add_user now u db,
         [.upsertUser u.id, .oracleQuery u.id,
          .send (.joinPrompt channels links)], none⟩
      ∧ profile channels links lookup ⟨u, some ()⟩ db =
        ⟨db, [.oracleQuery u.id, .send (.joinPrompt channels links)], none⟩)
    ∧ (is_user_member lookup channels = true →
      start channels links lookup now ⟨u, some ()⟩ db =
        ⟨add_user now u db,
         [.upsertUser u.id, .oracleQuery u.id,
          .send (.featureMenu networks_keyboard)], none⟩
      ∧ (∀ a ∈ (profile channels links lookup ⟨u, some ()⟩ db).sent,
          ∀ cs ls, a ≠ .send (.joinPrompt cs ls))
      ∧ (∀ a ∈ (profile channels links lookup ⟨u, some ()⟩ db).sent,
          ∀ ns, a ≠ .send (.featureMenu ns))
      ∧ ∀ rec, db.users.find? (fun x => x.user_id == u.id) = some rec →
          profile channels links lookup ⟨u, some ()⟩ db =
            ⟨db, [.oracleQuery u.id,
              .send (.profileInfo u.id u.first_name u.username
                ((db.airtime_requests.filter
                    (fun q => q.user_id == u.id)).length)
                rec.join_date)], none⟩) := by
  constructor
  · intro h
    constructor
    · simp [start, ask_user_to_join, h, hlen]
    · simp [profile, ask_user_to_join, h, hlen]
  · intro h
    refine ⟨by simp [start, h], ?_, ?_, ?_⟩
    · intro a ha cs ls
      cases hf : db.users.find? (fun x => x.user_id == u.id) with
      | none => simp [profile, get_user_stats, h, hf] at ha; subst ha; simp
      | some rec =>
          simp [profile, get_user_stats, h, hf] at ha
          rcases ha with rfl | rfl <;> simp
    · intro a ha ns
      cases hf : db.users.find? (fun x => x.user_id == u.id) with
      | none => simp [profile, get_user_stats, h, hf] at ha; subst ha; simp
      | some rec =>
          simp [profile, get_user_stats, h, hf] at ha
          rcases ha with rfl | rfl <;> simp
    · intro rec hf
      simp [profile, get_user_stats, h, hf]

/-- Witness for `gated_dichotomy` at a non-member and at a member input. -/
theorem gated_dichotomy_witness :
    start ["megahubbots"] ["L"] lookupFailAll 1 ⟨u7, some ()⟩ db0 =
      ⟨add_user 1 u7 db0,
       [.upsertUser 7, .oracleQuery 7,
        .send (.joinPrompt ["megahubbots"] ["L"])], none⟩
    ∧ start ["megahubbots"] ["L"] lookupMember 1 ⟨u7, some ()⟩ db0 =
      ⟨add_user 1 u7 db0,
       [.upsertUser 7, .oracleQuery 7,
        .send (.featureMenu networks_keyboard)], none⟩ :=
  ⟨((gated_dichotomy ["megahubbots"] ["L"] lookupFailAll 1 u7 db0
      (by decide)).1 (by decide)).1,
   ((gated_dichotomy ["megahubbots"] ["L"] lookupMember 1 u7 db0
      (by decide)).2 (by decide)).1⟩

/-- C1 counterexample: user 7 satisfies every required membership yet the
profile command renders the profile text, not the feature menu, so "a gated
command yields the feature menu" fails for the profile command. -/
theorem profile_member_no_menu_cx :
    is_user_member lookupMember ["megahubbots"] = true
    ∧ profile ["megahubbots"] ["L"] lookupMember u7m dbExist =
        ⟨dbExist, [.oracleQuery 7,
          .send (.profileInfo 7 "Seven" (some "uname") 0 100)], none⟩
    ∧ ((profile ["megahubbots"] ["L"] lookupMember u7m dbExist).sent.all
        (fun a => a != .send (.featureMenu networks_keyboard))) = true := by
  refine ⟨by decide, by decide, by decide⟩

/-! ## C3, C5, C10: the feature-selection flow -/

/-- C3: a completed feature-selection flow appends exactly one AirtimeRequest
and exactly one Transaction, both for the acting user, with timestamps not
earlier than the flow start; the amount is in [100, 500], a multiple of 10;
the request status is "pending" and the transaction status is "completed". -/
theorem airtime_flow_records (r t1 t2 flowStart : Nat) (u : TgUser)
    (data : String) (db : DB)
    (hr1 : 10 ≤ r) (hr2 : r ≤ 50) (h1 : flowStart ≤ t1) (h2 : flowStart ≤ t2) :
    (handle_airtime_request true true r t1 t2 u data db).db.airtime_requests =
      db.airtime_requests ++
        [⟨u.id, network_of data, "DEMO_PHONE", r * 10, "pending", t1⟩]
    ∧ (handle_airtime_request true true r t1 t2 u data db).db.transactions =
      db.transactions ++ [⟨u.id, "airtime", r * 10, "completed", t2⟩]
    ∧ (handle_airtime_request true true r t1 t2 u data db).db.users = db.users
    ∧ (handle_airtime_request true true r t1 t2 u data db).err = none
    ∧ 100 ≤ r * 10 ∧ r * 10 ≤ 500 ∧ r * 10 % 10 = 0
    ∧ flowStart ≤ t1 ∧ flowStart ≤ t2 := by
  refine ⟨?_, ?_, ?_, ?_, by omega, by omega, by omega, h1, h2⟩ <;>
    simp [handle_airtime_request, add_airtime_request, add_transaction]

/-- Witness for `airtime_flow_records` at a concrete draw and times. -/
theorem airtime_flow_records_witness :
    (handle_airtime_request true true 10 3 4 u7 "airtime_MTN" db0).db.airtime_requests =
      db0.airtime_requests ++
        [⟨7, network_of "airtime_MTN", "DEMO_PHONE", 100, "pending", 3⟩]
    ∧ (handle_airtime_request true true 10 3 4 u7 "airtime_MTN" db0).db.transactions =
      db0.transactions ++ [⟨7, "airtime", 100, "completed", 4⟩]
    ∧ (handle_airtime_request true true 10 3 4 u7 "airtime_MTN" db0).db.users = db0.users
    ∧ (handle_airtime_request true true 10 3 4 u7 "airtime_MTN" db0).err = none
    ∧ 100 ≤ 10 * 10 ∧ 10 * 10 ≤ 500 ∧ 10 * 10 % 10 = 0
    ∧ 2 ≤ 3 ∧ 2 ≤ 4 :=
  airtime_flow_records 10 3 4 2 u7 "airtime_MTN" db0
    (by decide) (by decide) (by decide) (by decide)

/-- C5: the airtime feature callback never consults the membership oracle:
routed through the callback dispatcher it behaves identically under any two
membership lookups (same persisted records, same success summary), and its
trace contains no oracle query. -/
theorem airtime_callback_oracle_independent (channels links : List String)
    (lookup1 lookup2 : String → LookupResult) (reqOk txOk : Bool)
    (r t1 t2 now : Nat) (u : TgUser) (data : String) (db : DB)
    (h : airtime_callbacks.contains data = true) :
    on_callback channels links lookup1 reqOk txOk r t1 t2 now u data db =
      on_callback channels links lookup2 reqOk txOk r t1 t2 now u data db
    ∧ ∀ a ∈ (handle_airtime_request reqOk txOk r t1 t2 u data db).sent,
        ∀ i, a ≠ Eff.oracleQuery i := by
  have h' : data ∈ airtime_callbacks := by simpa using h
  constructor
  · simp [on_callback, h']
  · intro a ha i
    rintro rfl
    unfold handle_airtime_request at ha
    cases reqOk <;> cases txOk <;> simp [PROCESSING_FRAMES] at ha

/-- Witness for `airtime_callback_oracle_independent`: a member lookup and a
failing lookup give the same routed behaviour on the MTN button. -/
theorem airtime_callback_oracle_independent_witness :
    on_callback ["megahubbots"] ["L"] lookupMember true true 10 3 4 5 u7
        "airtime_MTN" db0 =
      on_callback ["megahubbots"] ["L"] lookupFailAll true true 10 3 4 5 u7
        "airtime_MTN" db0 :=
  (airtime_callback_oracle_independent ["megahubbots"] ["L"] lookupMember
    lookupFailAll true true 10 3 4 5 u7 "airtime_MTN" db0 (by decide)).1

/-- C10 (amended): when either persistence write of the feature-selection
flow fails, the handler performs only the callback acknowledgement and the
animation, then raises: no success summary is emitted and the flow does not
complete, but no user-visible failure message is sent either — the raised
exception is only logged by the framework. -/
theorem persistence_failure_no_success (reqOk txOk : Bool) (r t1 t2 : Nat)
    (u : TgUser) (data : String) (db : DB)
    (h : reqOk = false ∨ txOk = false) :
    (handle_airtime_request reqOk txOk r t1 t2 u data db).sent =
      Eff.answerCallback :: PROCESSING_FRAMES.map Eff.animFrame
    ∧ (handle_airtime_request reqOk txOk r t1 t2 u data db).err =
      some "PersistenceFailure" := by
  rcases h with h | h <;> subst h
  · exact ⟨rfl, rfl⟩
  · cases reqOk <;> exact ⟨rfl, rfl⟩

/-- Witness for `persistence_failure_no_success`: concrete failing first
insert. -/
theorem persistence_failure_no_success_witness :
    (handle_airtime_request false true 10 3 4 u7 "airtime_MTN" db0).sent =
      Eff.answerCallback :: PROCESSING_FRAMES.map Eff.animFrame
    ∧ (handle_airtime_request false true 10 3 4 u7 "airtime_MTN" db0).err =
      some "PersistenceFailure" :=
  persistence_failure_no_success false true 10 3 4 u7 "airtime_MTN" db0
    (Or.inl rfl)

/-- C10 counterexample: when the AirtimeRequest insert raises, the handler's
whole visible output is the callback acknowledgement and the animation — in
particular it contains no `send` of any message at all, so no user-visible
failure is surfaced, contradicting the claim. -/
theorem persistence_failure_silent_cx :
    handle_airtime_request false true 10 3 4 u7 "airtime_MTN" db0 =
      ⟨db0, Eff.answerCallback :: PROCESSING_FRAMES.map Eff.animFrame,
       some "PersistenceFailure"⟩
    ∧ ((handle_airtime_request false true 10 3 4 u7 "airtime_MTN" db0).sent.all
        (fun a => match a with | .send _ => false | _ => true)) = true := by
  exact ⟨rfl, rfl⟩

/-! ## C4: the Verify confirmation callback -/

/-- C4: evaluation at the failing input. User 7 is a member of every required
channel and presses Verify: the oracle succeeds and the prompt is edited to
the confirmation, the user is upserted and the oracle re-run by the re-entered
`start`, but `start` then raises `AttributeError` (the callback-query update
has no `message`), so the feature menu is never re-rendered. -/
theorem verify_success_crash_eval :
    verify_membership ["megahubbots"] ["L"] lookupMember 5 u7 db0 =
      ⟨add_user 5 u7 db0,
       [.oracleQuery 7, .editMsg .verifiedConfirmation, .upsertUser 7,
        .oracleQuery 7],
       some "AttributeError"⟩
    ∧ ((verify_membership ["megahubbots"] ["L"] lookupMember 5 u7 db0).sent.all
        (fun a => a != .send (.featureMenu networks_keyboard))) = true := by
  exact ⟨rfl, rfl⟩

/-- The failure branch of the Verify callback, which does behave as the claim
says: a transient alert only, no edit of the prompt, no state change, and the
same result on every retry. -/
theorem verify_failure_alert_only (channels links : List String)
    (lookup : String → LookupResult) (now : Nat) (u : TgUser) (db : DB)
    (h : is_user_member lookup channels = false) :
    verify_membership channels links lookup now u db =
      ⟨db, [.oracleQuery u.id, .answerAlert], none⟩ := by
  simp [verify_membership, h]

/-- Witness for `verify_failure_alert_only`. -/
theorem verify_failure_alert_only_witness :
    verify_membership ["megahubbots"] ["L"] lookupFailAll 5 u7 db0 =
      ⟨db0, [.oracleQuery 7, .answerAlert], none⟩ :=
  verify_failure_alert_only ["megahubbots"] ["L"] lookupFailAll 5 u7 db0
    (by decide)

/-! ## C6: the user upsert -/

/-- C6: evaluation at the failing input. User 7 already has a stored record
with balance 5, 3 requests and join date 100; a later interaction at time 200
upserts and, because `add_user` puts every field in one `$set` document, the
stored balance, request count and join date are reset to 0, 0 and 200 —
contradicting the claim (and the function's own docstring "Add user to
database if not exists"). The no-duplication half does hold: the collection
still has a single record. -/
theorem add_user_resets_fields_eval :
    add_user 200 u7 dbExist =
      ⟨[⟨7, some "uname", "Seven", none, 0, 0, 200⟩], [], []⟩ := by
  exact rfl

/-! ## C7: ordering of upsert and oracle query -/

/-- When `ask_user_to_join` succeeds, the effect it produced is the join
prompt. -/
theorem ask_user_to_join_ok (channels links : List String) (upd : Upd)
    (b : Eff) (h : ask_user_to_join channels links upd = .ok b) :
    b = .send (.joinPrompt channels links) := by
  unfold ask_user_to_join at h
  split at h
  · cases hm : upd.message <;> rw [hm] at h <;> simp at h
    exact h.symm
  · simp at h

/-- C7 (amended): the entry command always upserts the User record first and
queries the oracle second; the profile command queries the oracle without
ever upserting the User record. -/
theorem upsert_then_oracle_order (channels links : List String)
    (lookup : String → LookupResult) (now : Nat) (upd : Upd) (db : DB) :
    (start channels links lookup now upd db).sent.take 2 =
      [.upsertUser upd.from_user.id, .oracleQuery upd.from_user.id]
    ∧ (start channels links lookup now upd db).db = add_user now upd.from_user db
    ∧ (profile channels links lookup upd db).sent.take 1 =
      [.oracleQuery upd.from_user.id]
    ∧ (profile channels links lookup upd db).db = db
    ∧ ∀ a ∈ (profile channels links lookup upd db).sent,
        ∀ i, a ≠ Eff.upsertUser i := by
  refine ⟨?_, ?_, ?_, ?_, ?_⟩
  · simp only [start]
    split <;> (try split) <;> simp
  · simp only [start]
    split <;> (try split) <;> simp
  · simp only [profile]
    split <;> (try split) <;> (try split) <;> simp
  · simp only [profile]
    split <;> (try split) <;> (try split) <;> simp
  · by_cases hm : is_user_member lookup channels
    · cases hmsg : upd.message with
      | none => simp [profile, hm, hmsg]
      | some _ =>
        cases hf : db.users.find? (fun x => x.user_id == upd.from_user.id) with
        | none => simp [profile, get_user_stats, hm, hmsg, hf]
        | some rec => simp [profile, get_user_stats, hm, hmsg, hf]
    · cases hask : ask_user_to_join channels links upd with
      | ok b =>
        have hb := ask_user_to_join_ok channels links upd b hask
        subst hb
        simp [profile, hm, hask]
      | error e => simp [profile, hm, hask]

/-- C7 counterexample: a concrete profile invocation runs to completion with a
nonempty effect trace containing no user upsert, so "the profile command
first upserts the User record" fails on the code. -/
theorem profile_no_upsert_cx :
    ((profile ["megahubbots"] ["L"] lookupMember u7m dbExist).sent.all
      (fun a => match a with | Eff.upsertUser _ => false | _ => true)) = true
    ∧ (profile ["megahubbots"] ["L"] lookupMember u7m dbExist).sent ≠ [] := by
  exact ⟨rfl, by decide⟩

/-! ## C8, C9: admin operations -/

/-- C8: any caller other than the configured admin identity gets an
authorization-denied reply from both privileged commands, with the database
unchanged, no statistics revealed and no delivery attempted. -/
theorem admin_gate_denies (admin_id : Nat) (u : TgUser) (args : List String)
    (deliver : Nat → Bool) (db : DB) (h : u.id ≠ admin_id) :
    stats admin_id u db = ⟨db, [.send .statsDenied], none⟩
    ∧ broadcast admin_id u args deliver db =
        ⟨db, [.send .broadcastDenied], none⟩ := by
  constructor <;> simp [stats, broadcast, h]

/-- Witness for `admin_gate_denies`: user 7 is not admin 1. -/
theorem admin_gate_denies_witness :
    stats 1 u7 dbTwo = ⟨dbTwo, [.send .statsDenied], none⟩
    ∧ broadcast 1 u7 ["hello"] deliverOdd dbTwo =
        ⟨dbTwo, [.send .broadcastDenied], none⟩ :=
  admin_gate_denies 1 u7 ["hello"] deliverOdd dbTwo (by decide)

/-- The delivery loop attempts once per listed user, in order, and counts
exactly the successful deliveries. -/
theorem broadcast_loop_spec (deliver : Nat → Bool) (ids : List Nat) :
    broadcast_loop deliver ids =
      ((ids.filter (fun i => deliver i)).length,
       ids.map (fun i => Eff.attemptDeliver i (deliver i))) := by
  induction ids with
  | nil => rfl
  | cons i rest ih =>
    simp only [broadcast_loop, ih]
    by_cases h : deliver i <;> simp [List.filter_cons, h]

/-- A list splits into the elements satisfying a predicate and those
failing it. -/
theorem length_filter_not_split (p : Nat → Bool) (l : List Nat) :
    l.length = (l.filter p).length + (l.filter (fun i => !(p i))).length := by
  induction l with
  | nil => rfl
  | cons a l ih => by_cases h : p a <;> simp [List.filter_cons, h, ih] <;> omega

/-- C9: an admin broadcast with a nonempty message makes exactly one delivery
attempt per known user — N + M attempts for N reachable and M unreachable
users, a failure never aborting the rest — and reports exactly N, the number
of successes. -/
theorem broadcast_attempts_and_report (admin_id : Nat) (u : TgUser)
    (args : List String) (deliver : Nat → Bool) (db : DB)
    (hA : u.id = admin_id) (hargs : args.isEmpty = false) :
    broadcast admin_id u args deliver db =
      ⟨db, ((db.users.map (fun rec => rec.user_id)).map
              (fun i => Eff.attemptDeliver i (deliver i)))
           ++ [.send (.broadcastReport
                (((db.users.map (fun rec => rec.user_id)).filter
                    (fun i => deliver i)).length))], none⟩
    ∧ ((db.users.map (fun rec => rec.user_id)).map
        (fun i => Eff.attemptDeliver i (deliver i))).length =
      (((db.users.map (fun rec => rec.user_id)).filter
          (fun i => deliver i)).length)
      + (((db.users.map (fun rec => rec.user_id)).filter
          (fun i => !(deliver i))).length) := by
  constructor
  · simp [broadcast, hA, hargs, broadcast_loop_spec]
  · rw [List.length_map]
    exact length_filter_not_split deliver _

/-- Witness for `broadcast_attempts_and_report`: the admin broadcasts to users
1 (reachable) and 2 (unreachable): two attempts, one success reported. -/
theorem broadcast_attempts_and_report_witness :
    broadcast 1 uAdmin ["hello"] deliverOdd dbTwo =
      ⟨dbTwo, ((dbTwo.users.map (fun rec => rec.user_id)).map
                (fun i => Eff.attemptDeliver i (deliverOdd i)))
             ++ [.send (.broadcastReport
                  (((dbTwo.users.map (fun rec => rec.user_id)).filter
                      (fun i => deliverOdd i)).length))], none⟩
    ∧ ((dbTwo.users.map (fun rec => rec.user_id)).map
        (fun i => Eff.attemptDeliver i (deliverOdd i))).length =
      (((dbTwo.users.map (fun rec => rec.user_id)).filter
          (fun i => deliverOdd i)).length)
      + (((dbTwo.users.map (fun rec => rec.user_id)).filter
          (fun i => !(deliverOdd i))).length) :=
  broadcast_attempts_and_report 1 uAdmin ["hello"] deliverOdd dbTwo rfl rfl
